import Mathlib

/-
Verification of the TrustLink mobile-app backend client
(src/app/api/api.js): a shallow embedding of the eight HTTP
wrapper operations and the WebSocket chat helper, with proofs of the
request-construction and error-handling contract.

Modelling conventions:
* JavaScript values reachable in this module are modelled by `JsValue`
  (undefined, null, booleans, numbers as integers, strings, objects as
  association lists, arrays).  Property access on a non-object or a
  missing key yields `undefined`, as in JS.
* `a || b` is modelled by `jsOr`, using JS truthiness (`JsValue.truthy`).
* A `fetch` call is modelled by the `Request` value the code constructs
  together with an environment-chosen `FetchOutcome`: either the fetch
  promise rejects with a network error, or a `Response` arrives.
  `Response.ok` is the Fetch API flag (true exactly when the HTTP status
  is in 200..299); `Response.json()` is modelled by the `jsonBody`
  field, an `Except` of the parse error message or the parsed value.
* Each exported async function becomes a pure function from its inputs
  and the fetch outcome to an `OpRun`: the list of requests issued, the
  settled result (`Except JsError JsValue`), and the `console.error`
  log entries `(tag, error)` emitted, in order.
* `JSON.stringify` of a constructed object is kept structural: a request
  body is `Body.json v` carrying the object that was stringified.
-/

namespace TrustLink

/-- JavaScript runtime values, as far as this module manipulates them. -/
inductive JsValue where
  | undefined : JsValue
  | null : JsValue
  | bool (b : Bool) : JsValue
  | num (n : Int) : JsValue
  | str (s : String) : JsValue
  | obj (fields : List (String × JsValue)) : JsValue
  | arr (elems : List JsValue) : JsValue
deriving Repr, BEq

/-- JS truthiness: undefined, null, false, 0 and the empty string are
falsy; every object and array is truthy.  (NaN is not representable in
the integer number model.) -/
def JsValue.truthy : JsValue → Bool
  | .undefined => false
  | .null => false
  | .bool b => b
  | .num n => n != 0
  | .str s => s != ""
  | .obj _ => true
  | .arr _ => true

/-- Property access `v.k`: looks the key up in an object, yields
undefined on a missing key or a non-object. -/
def JsValue.get : JsValue → String → JsValue
  | .obj fields, k =>
      match fields.find? (fun f => f.fst == k) with
      | some f => f.snd
      | none => .undefined
  | _, _ => .undefined

/-- The JS short-circuit disjunction `a || b` on values. -/
def jsOr (a b : JsValue) : JsValue :=
  if a.truthy then a else b

mutual

/-- String conversion as performed by template-literal interpolation. -/
def JsValue.toJsString : JsValue → String
  | .undefined => "undefined"
  | .null => "null"
  | .bool b => cond b "true" "false"
  | .num n => toString n
  | .str s => s
  | .obj _ => "[object Object]"
  | .arr es => JsValue.arrJoin es

/-- Array-to-string: elements joined with commas, null and undefined
elements rendered empty, as in `Array.prototype.toString`. -/
def JsValue.arrJoin : List JsValue → String
  | [] => ""
  | v :: vs =>
      (match v with
       | .undefined => ""
       | .null => ""
       | w => JsValue.toJsString w)
      ++ (if vs.isEmpty then "" else "," ++ JsValue.arrJoin vs)

end

/-- Errors that can settle one of the async operations:
`error` is a thrown `new Error(msg)`, `parseError` the SyntaxError
raised by `response.json()`, `networkError` a rejected fetch. -/
inductive JsError where
  | error (msg : String) : JsError
  | parseError (msg : String) : JsError
  | networkError (msg : String) : JsError
deriving Repr, BEq

/-- Body of an outgoing request: absent, a raw string, or the
JSON.stringify image of a constructed value (kept structural). -/
inductive Body where
  | none : Body
  | str (s : String) : Body
  | json (v : JsValue) : Body
deriving Repr, BEq

/-- An HTTP request as assembled for `fetch`. -/
structure Request where
  url : String
  method : String := "GET"
  headers : List (String × String) := []
  body : Body := .none
deriving Repr, BEq

/-- The observable part of a `fetch` Response used by this module:
the `ok` flag (true exactly when the HTTP status is 200..299), the
status text, and the result of `response.json()` on the body. -/
structure Response where
  ok : Bool
  statusText : String
  jsonBody : Except String JsValue
deriving Repr

/-- Outcome of a `fetch` call: the promise rejects with a transport
error, or a response arrives. -/
inductive FetchOutcome where
  | networkFailure (msg : String) : FetchOutcome
  | response (r : Response) : FetchOutcome
deriving Repr

/-- A `console.error(tag, error)` record. -/
abbrev LogEntry := String × JsError

/-- Trace of one operation call: the requests issued (in order), the
settled result, and the error-log entries emitted (in order). -/
structure OpRun where
  requests : List Request
  result : Except JsError JsValue
  logs : List LogEntry
deriving Repr

/-- Shared shape of the six status-checking operations (login,
register, sendEmergency, sendReport, getIncidentMessages,
sendChatMessage); the source repeats this try/catch pattern verbatim
with only the failure-message prefix, the log tag and the request
differing.  On a response with ok = false the body is parsed and a
new Error(failMsg ++ (errorData.detail or statusText)) is thrown; any
caught error is logged with the tag and rethrown. -/
def checkedRun (failMsg tag : String) (req : Request) (o : FetchOutcome) : OpRun :=
  match o with
  | .networkFailure e =>
      { requests := [req]
        result := .error (.networkError e)
        logs := [(tag, .networkError e)] }
  | .response r =>
      if r.ok then
        match r.jsonBody with
        | .ok v => { requests := [req], result := .ok v, logs := [] }
        | .error e =>
            { requests := [req]
              result := .error (.parseError e)
              logs := [(tag, .parseError e)] }
      else
        match r.jsonBody with
        | .ok errorData =>
            let err := JsError.error
              (failMsg ++ (jsOr (errorData.get "detail") (.str r.statusText)).toJsString)
            { requests := [req], result := .error err, logs := [(tag, err)] }
        | .error e =>
            { requests := [req]
              result := .error (.parseError e)
              logs := [(tag, .parseError e)] }

/-- Shared shape of getIncidents and createIncident: the body is parsed
and returned with no status check; any caught error is logged with the
tag and rethrown. -/
def uncheckedRun (tag : String) (req : Request) (o : FetchOutcome) : OpRun :=
  match o with
  | .networkFailure e =>
      { requests := [req]
        result := .error (.networkError e)
        logs := [(tag, .networkError e)] }
  | .response r =>
      match r.jsonBody with
      | .ok v => { requests := [req], result := .ok v, logs := [] }
      | .error e =>
          { requests := [req]
            result := .error (.parseError e)
            logs := [(tag, .parseError e)] }

/-- Base URL constant from the top of api.js. -/
def API_BASE_URL : String := "https://trustlink-backend-production.up.railway.app/api"

/-- Character left unescaped by encodeURIComponent: ASCII letters,
digits, and - _ . ! ~ * apostrophe ( ). -/
def uriUnescaped (c : Char) : Bool :=
  c.isAlpha || c.isDigit ||
  c ∈ ['-', '_', '.', '!', '~', '*', Char.ofNat 39, '(', ')']

/-- Uppercase hexadecimal digit for a value below 16. -/
def hexDigitChar (n : Nat) : Char :=
  if n < 10 then Char.ofNat (48 + n) else Char.ofNat (55 + n)

/-- Percent-encoding of one byte, uppercase hex. -/
def percentByte (b : Nat) : String :=
  String.mk ['%', hexDigitChar (b / 16), hexDigitChar (b % 16)]

/-- ECMAScript encodeURIComponent: keeps unreserved characters, percent-
encodes the UTF-8 bytes of every other character. -/
def encodeURIComponent (s : String) : String :=
  s.data.foldl
    (fun acc c =>
      if uriUnescaped c then acc.push c
      else acc ++ (String.utf8EncodeChar c).foldl
        (fun a b => a ++ percentByte b.toNat) "")
    ""

/-- Request constructed by login: form-encoded POST to /auth/login with
URL-encoded username and password fields. -/
def loginRequest (email password : String) : Request :=
  { url := API_BASE_URL ++ "/auth/login"
    method := "POST"
    headers := [("Content-Type", "application/x-www-form-urlencoded")]
    body := .str ("username=" ++ encodeURIComponent email
      ++ "&password=" ++ encodeURIComponent password) }

/-- JSON body constructed by register from the caller-supplied
userData: normalizes the two field-name spellings with JS `||`,
defaults name and phone to the empty string, and pins role to
"citizen". -/
def registerBody (userData : JsValue) : JsValue :=
  .obj
    [ ("email", userData.get "email")
    , ("password", userData.get "password")
    , ("full_name", jsOr (userData.get "fullName") (jsOr (userData.get "full_name") (.str "")))
    , ("phone_number", jsOr (userData.get "phoneNumber") (jsOr (userData.get "phone_number") (.str "")))
    , ("role", .str "citizen") ]

/-- Request constructed by register: JSON POST to /auth/register. -/
def registerRequest (userData : JsValue) : Request :=
  { url := API_BASE_URL ++ "/auth/register"
    method := "POST"
    headers := [("Content-Type", "application/json")]
    body := .json (registerBody userData) }

/-- Request constructed by getIncidents: bearer-token GET /incidents. -/
def getIncidentsRequest (token : String) : Request :=
  { url := API_BASE_URL ++ "/incidents"
    headers := [("Authorization", "Bearer " ++ token)] }

/-- Request constructed by createIncident: bearer-token JSON POST of the
incident payload to /incidents. -/
def createIncidentRequest (token : String) (incidentData : JsValue) : Request :=
  { url := API_BASE_URL ++ "/incidents"
    method := "POST"
    headers := [("Authorization", "Bearer " ++ token), ("Content-Type", "application/json")]
    body := .json incidentData }

/-- Request constructed by sendEmergency. -/
def sendEmergencyRequest (token : String) (emergencyData : JsValue) : Request :=
  { url := API_BASE_URL ++ "/incidents/emergency"
    method := "POST"
    headers := [("Authorization", "Bearer " ++ token), ("Content-Type", "application/json")]
    body := .json emergencyData }

/-- Request constructed by sendReport. -/
def sendReportRequest (token : String) (reportData : JsValue) : Request :=
  { url := API_BASE_URL ++ "/incidents/report"
    method := "POST"
    headers := [("Authorization", "Bearer " ++ token), ("Content-Type", "application/json")]
    body := .json reportData }

/-- Request constructed by getIncidentMessages: bearer-token GET of the
per-incident messages path. -/
def getIncidentMessagesRequest (token incidentId : String) : Request :=
  { url := API_BASE_URL ++ "/chat/incidents/" ++ incidentId ++ "/messages"
    headers := [("Authorization", "Bearer " ++ token)] }

/-- Request constructed by sendChatMessage: JSON POST of
content and incident_id to /chat/messages. -/
def sendChatMessageRequest (token : String) (incidentId message : JsValue) : Request :=
  { url := API_BASE_URL ++ "/chat/messages"
    method := "POST"
    headers := [("Authorization", "Bearer " ++ token), ("Content-Type", "application/json")]
    body := .json (.obj [("content", message), ("incident_id", incidentId)]) }

/-- login(email, password). -/
def login (email password : String) (o : FetchOutcome) : OpRun :=
  checkedRun "Login failed: " "Login error:" (loginRequest email password) o

/-- register(userData). -/
def register (userData : JsValue) (o : FetchOutcome) : OpRun :=
  checkedRun "Registration failed: " "Register error:" (registerRequest userData) o

/-- getIncidents(token). -/
def getIncidents (token : String) (o : FetchOutcome) : OpRun :=
  uncheckedRun "Get incidents error:" (getIncidentsRequest token) o

/-- createIncident(token, incidentData). -/
def createIncident (token : String) (incidentData : JsValue) (o : FetchOutcome) : OpRun :=
  uncheckedRun "Create incident error:" (createIncidentRequest token incidentData) o

/-- sendEmergency(token, emergencyData). -/
def sendEmergency (token : String) (emergencyData : JsValue) (o : FetchOutcome) : OpRun :=
  checkedRun "Emergency failed: " "Send emergency error:" (sendEmergencyRequest token emergencyData) o

/-- sendReport(token, reportData). -/
def sendReport (token : String) (reportData : JsValue) (o : FetchOutcome) : OpRun :=
  checkedRun "Report failed: " "Send report error:" (sendReportRequest token reportData) o

/-- getIncidentMessages(token, incidentId). -/
def getIncidentMessages (token incidentId : String) (o : FetchOutcome) : OpRun :=
  checkedRun "Get messages failed: " "Get messages error:" (getIncidentMessagesRequest token incidentId) o

/-- sendChatMessage(token, incidentId, message). -/
def sendChatMessage (token : String) (incidentId message : JsValue) (o : FetchOutcome) : OpRun :=
  checkedRun "Send message failed: " "Send message error:" (sendChatMessageRequest token incidentId message) o

/-- A WebSocket event hook slot: left unset, or set to a handler whose
only action is a diagnostic console log with the given text. -/
inductive Hook where
  | unset : Hook
  | logOnly (text : String) : Hook
deriving Repr, BEq

/-- The socket handle returned by connectToChat: the target URL and the
four event hook slots. -/
structure Socket where
  url : String
  onopen : Hook := .unset
  onerror : Hook := .unset
  onmessage : Hook := .unset
  onclose : Hook := .unset
deriving Repr, BEq

/-- connectToChat(incidentId, token): builds the wss URL by raw template
interpolation, sets a log-only open hook and a log-only error hook, and
returns the socket handle. -/
def connectToChat (incidentId token : String) : Socket :=
  { url := "wss://trustlink-backend-production.up.railway.app/api/ws/chat/"
      ++ incidentId ++ "?token=" ++ token
    onopen := .logOnly "WebSocket подключен"
    onerror := .logOnly "WebSocket ошибка:" }

/-- Suffix of a character list after the first occurrence of a
character, or none when the character does not occur. -/
def afterChar (c : Char) : List Char → Option (List Char)
  | [] => none
  | a :: as => if a = c then some as else afterChar c as

/-- Longest prefix of a character list before the first occurrence of a
character. -/
def upToChar (c : Char) : List Char → List Char
  | [] => []
  | a :: as => if a = c then [] else a :: upToChar c as

/-- Splitting of a character list on a separator character. -/
def splitOnChar (c : Char) : List Char → List (List Char)
  | [] => [[]]
  | a :: as =>
      let rest := splitOnChar c as
      if a = c then [] :: rest
      else
        match rest with
        | [] => [[a]]
        | g :: gs => (a :: g) :: gs

/-- Removal of an expected prefix from a character list; none when the
list does not start with that prefix. -/
def dropPrefixChars : List Char → List Char → Option (List Char)
  | [], rest => some rest
  | _ :: _, [] => none
  | p :: ps, a :: as => if a = p then dropPrefixChars ps as else none

/-- Query-string portion of a URL: everything after the first question
mark and before the following fragment marker. -/
def queryOfUrl (url : String) : String :=
  match afterChar '?' url.data with
  | none => ""
  | some rest => String.mk (upToChar '#' rest)

/-- Value of the token query parameter of a URL, per standard
ampersand-separated query parsing. -/
def tokenQueryParam (url : String) : Option String :=
  (splitOnChar '&' (queryOfUrl url).data).findSome?
    (fun kv => (dropPrefixChars "token=".data kv).map String.mk)



/-- Every run of the status-checking shape issues exactly the one
request handed to fetch. -/
theorem checkedRun_requests (f t : String) (req : Request) (o : FetchOutcome) :
    (checkedRun f t req o).requests = [req] := by
  rcases o with e | ⟨ok, st, jb⟩
  · rfl
  · cases ok <;> rcases jb with e | v <;> rfl

/-- Every run of the unchecked shape issues exactly the one request. -/
theorem uncheckedRun_requests (t : String) (req : Request) (o : FetchOutcome) :
    (uncheckedRun t req o).requests = [req] := by
  rcases o with e | ⟨ok, st, jb⟩
  · rfl
  · rcases jb with e | v <;> rfl

/-- When the status-checking shape settles with an error, the log holds
exactly that error under the operation tag. -/
theorem checkedRun_log (f t : String) (req : Request) (o : FetchOutcome) (err : JsError)
    (h : (checkedRun f t req o).result = .error err) :
    (checkedRun f t req o).logs = [(t, err)] := by
  rcases o with e | ⟨ok, st, jb⟩
  · simp only [checkedRun] at h ⊢
    injection h with h1
    rw [h1]
  · cases ok <;> rcases jb with e | v <;> simp_all [checkedRun]

/-- When the unchecked shape settles with an error, the log holds
exactly that error under the operation tag. -/
theorem uncheckedRun_log (t : String) (req : Request) (o : FetchOutcome) (err : JsError)
    (h : (uncheckedRun t req o).result = .error err) :
    (uncheckedRun t req o).logs = [(t, err)] := by
  rcases o with e | ⟨ok, st, jb⟩
  · simp only [uncheckedRun] at h ⊢
    injection h with h1
    rw [h1]
  · rcases jb with e | v <;> simp_all [uncheckedRun]

/-- A successful settlement of the status-checking shape can only come
from a response whose status was ok and whose body parsed to the
returned value; nothing is logged then. -/
theorem checkedRun_ok_inv (f t : String) (req : Request) (o : FetchOutcome) (v : JsValue)
    (h : (checkedRun f t req o).result = .ok v) :
    ∃ r, o = .response r ∧ r.ok = true ∧ r.jsonBody = .ok v ∧
      (checkedRun f t req o).logs = [] := by
  rcases o with e | ⟨ok, st, jb⟩
  · simp [checkedRun] at h
  · cases ok with
    | false => rcases jb with e | w <;> simp [checkedRun] at h
    | true =>
      rcases jb with e | w
      · simp [checkedRun] at h
      · refine ⟨⟨true, st, .ok w⟩, rfl, rfl, ?_, rfl⟩
        injection h with h1
        rw [h1]

/-- A successful settlement of the unchecked shape can only come from a
response whose body parsed to the returned value; nothing is logged. -/
theorem uncheckedRun_ok_inv (t : String) (req : Request) (o : FetchOutcome) (v : JsValue)
    (h : (uncheckedRun t req o).result = .ok v) :
    ∃ r, o = .response r ∧ r.jsonBody = .ok v ∧
      (uncheckedRun t req o).logs = [] := by
  rcases o with e | ⟨ok, st, jb⟩
  · simp [uncheckedRun] at h
  · rcases jb with e | w
    · simp [uncheckedRun] at h
    · refine ⟨⟨ok, st, .ok w⟩, rfl, ?_, rfl⟩
      injection h with h1
      rw [h1]

/-- On a non-success response whose body fails to parse, the
status-checking shape settles with the parse error itself. -/
theorem checkedRun_parse_error (f t : String) (req : Request) (r : Response) (e : String)
    (hok : r.ok = false) (hb : r.jsonBody = .error e) :
    (checkedRun f t req (.response r)).result = .error (.parseError e) := by
  simp [checkedRun, hok, hb]

/-- On a non-success response whose body parses, the status-checking
shape settles with a new Error of the prefixed detail-or-statusText
message. -/
theorem checkedRun_nonsuccess (f t : String) (req : Request) (r : Response) (v : JsValue)
    (hok : r.ok = false) (hb : r.jsonBody = .ok v) :
    (checkedRun f t req (.response r)).result
      = .error (.error (f ++ (jsOr (v.get "detail") (.str r.statusText)).toJsString)) := by
  simp [checkedRun, hok, hb]

/-- Template-literal rendering of a JS disjunction against a string:
the left operand when truthy, otherwise the string. -/
theorem jsOr_str_toJsString (a : JsValue) (s : String) :
    (jsOr a (.str s)).toJsString = if a.truthy then a.toJsString else s := by
  cases h : a.truthy <;> simp [jsOr, h, JsValue.toJsString]

/-- Field of the register body normalizing the two name spellings. -/
theorem registerBody_full_name (u : JsValue) :
    (registerBody u).get "full_name"
      = jsOr (u.get "fullName") (jsOr (u.get "full_name") (.str "")) := rfl

/-- Field of the register body normalizing the two phone spellings. -/
theorem registerBody_phone_number (u : JsValue) :
    (registerBody u).get "phone_number"
      = jsOr (u.get "phoneNumber") (jsOr (u.get "phone_number") (.str "")) := rfl

/-- C1: for every userData passed to register, the JSON body submitted
to the backend has its role field equal to "citizen", regardless of any
role field the caller supplies (including role "admin"). -/
theorem register_role_always_citizen (userData : JsValue) (o : FetchOutcome) :
    (register userData o).requests = [registerRequest userData] ∧
    (registerRequest userData).body = .json (registerBody userData) ∧
    (registerBody userData).get "role" = .str "citizen" :=
  ⟨checkedRun_requests _ _ _ _, rfl, rfl⟩

/-- C2: for getIncidents and createIncident a response with non-success
status does not make the call fail: the parsed body is returned as the
result, exactly as for a success status. -/
theorem getIncidents_createIncident_ignore_status (token : String)
    (incidentData v : JsValue) (r : Response)
    (hok : r.ok = false) (hb : r.jsonBody = .ok v) :
    (getIncidents token (.response r)).result = .ok v ∧
    (createIncident token incidentData (.response r)).result = .ok v ∧
    (getIncidents token (.response r)).result
      = (getIncidents token (.response { r with ok := true })).result ∧
    (createIncident token incidentData (.response r)).result
      = (createIncident token incidentData (.response { r with ok := true })).result := by
  refine ⟨?_, ?_, ?_, ?_⟩ <;> simp [getIncidents, createIncident, uncheckedRun, hb]

/-- C2 witness: a 4xx-style response with a parseable body resolves
getIncidents to that body. -/
theorem getIncidents_createIncident_ignore_status_witness :
    0 = 0 ∧
    (getIncidents "tok" (.response ⟨false, "Bad Request",
        .ok (.obj [("detail", .str "boom")])⟩)).result
      = .ok (.obj [("detail", .str "boom")]) :=
  ⟨rfl, (getIncidents_createIncident_ignore_status "tok" (.obj [])
      (.obj [("detail", .str "boom")])
      ⟨false, "Bad Request", .ok (.obj [("detail", .str "boom")])⟩ rfl rfl).1⟩

/-- C3 counterexample: a non-success login response whose JSON body has
a detail field that is present but empty produces the message built
from the HTTP status text, not from the detail field, refuting the
claim that a present detail field always supplies the message. -/
theorem login_empty_detail_counterexample :
    (login "a@b.com" "pw" (.response ⟨false, "Unprocessable Entity",
        .ok (.obj [("detail", .str "")])⟩)).result
      = .error (.error "Login failed: Unprocessable Entity") ∧
    (login "a@b.com" "pw" (.response ⟨false, "Unprocessable Entity",
        .ok (.obj [("detail", .str "")])⟩)).result
      ≠ .error (.error ("Login failed: " ++ "")) := by
  refine ⟨rfl, fun h => ?_⟩
  injection h with h1
  injection h1 with h2
  exact absurd h2 (by decide)

/-- C3 amended: on a non-success login response whose body parses as
JSON, login fails with "Login failed: " followed by the string
rendering of the detail field when that field is truthy (present and
not empty, null, false or zero), and by the HTTP status text
otherwise. -/
theorem login_nonsuccess_detail_or_statusText (email password : String)
    (r : Response) (v : JsValue)
    (hok : r.ok = false) (hb : r.jsonBody = .ok v) :
    (login email password (.response r)).result
      = .error (.error ("Login failed: "
          ++ (if (v.get "detail").truthy
              then (v.get "detail").toJsString
              else r.statusText))) := by
  have h := checkedRun_nonsuccess "Login failed: " "Login error:"
    (loginRequest email password) r v hok hb
  exact h.trans (by rw [jsOr_str_toJsString])

/-- C3 witness: a non-success response with a non-empty detail field
yields the detail-carrying message. -/
theorem login_nonsuccess_detail_or_statusText_witness :
    (login "a@b.com" "pw" (.response ⟨false, "Bad Request",
        .ok (.obj [("detail", .str "Invalid credentials")])⟩)).result
      = .error (.error "Login failed: Invalid credentials") := by
  have h := login_nonsuccess_detail_or_statusText "a@b.com" "pw"
    ⟨false, "Bad Request", .ok (.obj [("detail", .str "Invalid credentials")])⟩
    (.obj [("detail", .str "Invalid credentials")]) rfl rfl
  simpa using h

/-- C4: a registration input providing exactly one of fullName or
full_name (as a string) yields a submitted full_name equal to the
provided value, and the empty string when neither is provided; the same
law holds for phoneNumber and phone_number. -/
theorem register_name_phone_normalization (u : JsValue) (s : String) :
    ((u.get "fullName" = .str s ∧ u.get "full_name" = .undefined) →
        (registerBody u).get "full_name" = .str s) ∧
    ((u.get "fullName" = .undefined ∧ u.get "full_name" = .str s) →
        (registerBody u).get "full_name" = .str s) ∧
    ((u.get "fullName" = .undefined ∧ u.get "full_name" = .undefined) →
        (registerBody u).get "full_name" = .str "") ∧
    ((u.get "phoneNumber" = .str s ∧ u.get "phone_number" = .undefined) →
        (registerBody u).get "phone_number" = .str s) ∧
    ((u.get "phoneNumber" = .undefined ∧ u.get "phone_number" = .str s) →
        (registerBody u).get "phone_number" = .str s) ∧
    ((u.get "phoneNumber" = .undefined ∧ u.get "phone_number" = .undefined) →
        (registerBody u).get "phone_number" = .str "") := by
  refine ⟨fun ⟨h1, h2⟩ => ?_, fun ⟨h1, h2⟩ => ?_, fun ⟨h1, h2⟩ => ?_,
          fun ⟨h1, h2⟩ => ?_, fun ⟨h1, h2⟩ => ?_, fun ⟨h1, h2⟩ => ?_⟩ <;>
    first
      | (rw [registerBody_full_name, h1, h2]
         by_cases hs : s = "" <;> simp [jsOr, JsValue.truthy, hs])
      | (rw [registerBody_phone_number, h1, h2]
         by_cases hs : s = "" <;> simp [jsOr, JsValue.truthy, hs])

/-- C4 witness: an input carrying only the camelCase name maps it onto
the snake_case field. -/
theorem register_name_phone_normalization_witness :
    (registerBody (.obj [("fullName", JsValue.str "A B")])).get "full_name"
      = .str "A B" :=
  (register_name_phone_normalization (.obj [("fullName", JsValue.str "A B")]) "A B").1
    ⟨rfl, rfl⟩

/-- C5: for every email and password, login issues exactly one POST
request with Content-Type application/x-www-form-urlencoded whose body
is the username and password fields, each URL-encoded. -/
theorem login_single_urlencoded_post (email password : String) (o : FetchOutcome) :
    (login email password o).requests = [loginRequest email password] ∧
    (loginRequest email password).method = "POST" ∧
    (loginRequest email password).headers
      = [("Content-Type", "application/x-www-form-urlencoded")] ∧
    (loginRequest email password).body
      = .str ("username=" ++ encodeURIComponent email
          ++ "&password=" ++ encodeURIComponent password) :=
  ⟨checkedRun_requests _ _ _ _, rfl, rfl, rfl⟩

/-- C6: connectToChat builds a target URL consisting of the fixed wss
origin, the path segment ws/chat/ followed by the incident id, and the
token query parameter, registers only a log-only open hook and a
log-only error hook, and returns the socket handle. -/
theorem connectToChat_url_and_hooks (incidentId token : String) :
    (connectToChat incidentId token).url
      = "wss://trustlink-backend-production.up.railway.app/api/ws/chat/"
        ++ incidentId ++ "?token=" ++ token ∧
    (connectToChat incidentId token).onopen = .logOnly "WebSocket подключен" ∧
    (connectToChat incidentId token).onerror = .logOnly "WebSocket ошибка:" ∧
    (connectToChat incidentId token).onmessage = .unset ∧
    (connectToChat incidentId token).onclose = .unset :=
  ⟨rfl, rfl, rfl, rfl, rfl⟩

/-- C7: in each of the six status-checking operations, a non-success
response whose body fails to parse as JSON settles the call with the
parse error itself, which is never the intended prefixed Error. -/
theorem checked_ops_parse_error_preempts (email password token incidentId : String)
    (userData emergencyData reportData message : JsValue)
    (r : Response) (e : String) (hok : r.ok = false) (hb : r.jsonBody = .error e) :
    (login email password (.response r)).result = .error (.parseError e) ∧
    (register userData (.response r)).result = .error (.parseError e) ∧
    (sendEmergency token emergencyData (.response r)).result = .error (.parseError e) ∧
    (sendReport token reportData (.response r)).result = .error (.parseError e) ∧
    (getIncidentMessages token incidentId (.response r)).result
      = .error (.parseError e) ∧
    (sendChatMessage token (.str incidentId) message (.response r)).result
      = .error (.parseError e) ∧
    ∀ m : String, JsError.parseError e ≠ .error m :=
  ⟨checkedRun_parse_error _ _ _ _ _ hok hb, checkedRun_parse_error _ _ _ _ _ hok hb,
   checkedRun_parse_error _ _ _ _ _ hok hb, checkedRun_parse_error _ _ _ _ _ hok hb,
   checkedRun_parse_error _ _ _ _ _ hok hb, checkedRun_parse_error _ _ _ _ _ hok hb,
   fun _ h => JsError.noConfusion h⟩

/-- C7 witness: a 500-style login response with a non-JSON body settles
with the parse error. -/
theorem checked_ops_parse_error_preempts_witness :
    (login "a@b.com" "pw" (.response ⟨false, "Internal Server Error",
        .error "Unexpected end of JSON input"⟩)).result
      = .error (.parseError "Unexpected end of JSON input") :=
  (checked_ops_parse_error_preempts "a@b.com" "pw" "tok" "42"
    (.obj []) (.obj []) (.obj []) (.str "hi")
    ⟨false, "Internal Server Error", .error "Unexpected end of JSON input"⟩
    "Unexpected end of JSON input" rfl rfl).1

/-- C8: every operation is an instance of one of the two run shapes
with its operation-specific tag; both shapes log a settled error under
that tag and propagate it unchanged, propagate transport failures, and
can only return a value when the response body actually parsed to it
(with nothing logged), so no error is ever swallowed. -/
theorem ops_log_tag_and_propagate :
    (∀ f t req o err, (checkedRun f t req o).result = .error err →
        (checkedRun f t req o).logs = [(t, err)]) ∧
    (∀ t req o err, (uncheckedRun t req o).result = .error err →
        (uncheckedRun t req o).logs = [(t, err)]) ∧
    (∀ f t req e,
        (checkedRun f t req (.networkFailure e)).result = .error (.networkError e)) ∧
    (∀ t req e,
        (uncheckedRun t req (.networkFailure e)).result = .error (.networkError e)) ∧
    (∀ f t req o v, (checkedRun f t req o).result = .ok v →
        ∃ r, o = .response r ∧ r.ok = true ∧ r.jsonBody = .ok v ∧
          (checkedRun f t req o).logs = []) ∧
    (∀ t req o v, (uncheckedRun t req o).result = .ok v →
        ∃ r, o = .response r ∧ r.jsonBody = .ok v ∧
          (uncheckedRun t req o).logs = []) ∧
    (∀ e p o, login e p o
        = checkedRun "Login failed: " "Login error:" (loginRequest e p) o) ∧
    (∀ u o, register u o
        = checkedRun "Registration failed: " "Register error:" (registerRequest u) o) ∧
    (∀ tk o, getIncidents tk o
        = uncheckedRun "Get incidents error:" (getIncidentsRequest tk) o) ∧
    (∀ tk d o, createIncident tk d o
        = uncheckedRun "Create incident error:" (createIncidentRequest tk d) o) ∧
    (∀ tk d o, sendEmergency tk d o
        = checkedRun "Emergency failed: " "Send emergency error:"
            (sendEmergencyRequest tk d) o) ∧
    (∀ tk d o, sendReport tk d o
        = checkedRun "Report failed: " "Send report error:" (sendReportRequest tk d) o) ∧
    (∀ tk i o, getIncidentMessages tk i o
        = checkedRun "Get messages failed: " "Get messages error:"
            (getIncidentMessagesRequest tk i) o) ∧
    (∀ tk i m o, sendChatMessage tk i m o
        = checkedRun "Send message failed: " "Send message error:"
            (sendChatMessageRequest tk i m) o) :=
  ⟨checkedRun_log, uncheckedRun_log,
   fun _ _ _ _ => rfl, fun _ _ _ => rfl,
   checkedRun_ok_inv, uncheckedRun_ok_inv,
   fun _ _ _ => rfl, fun _ _ => rfl, fun _ _ => rfl, fun _ _ _ => rfl,
   fun _ _ _ => rfl, fun _ _ _ => rfl, fun _ _ _ => rfl, fun _ _ _ _ => rfl⟩

/-- C8 witness: a refused connection during login is logged under the
login tag with the very network error that is propagated. -/
theorem ops_log_tag_and_propagate_witness :
    (checkedRun "Login failed: " "Login error:" (loginRequest "a@b.com" "pw")
        (.networkFailure "ECONNREFUSED")).logs
      = [("Login error:", JsError.networkError "ECONNREFUSED")] :=
  ops_log_tag_and_propagate.1 "Login failed: " "Login error:"
    (loginRequest "a@b.com" "pw") (.networkFailure "ECONNREFUSED")
    (.networkError "ECONNREFUSED") rfl

/-- C9: in register the camelCase spelling wins only when truthy; a
falsy fullName falls through to full_name, and a falsy full_name falls
through to the empty-string default; likewise for the phone fields. -/
theorem register_truthiness_precedence (u : JsValue) :
    ((u.get "fullName").truthy = true →
        (registerBody u).get "full_name" = u.get "fullName") ∧
    ((u.get "fullName").truthy = false → (u.get "full_name").truthy = true →
        (registerBody u).get "full_name" = u.get "full_name") ∧
    ((u.get "fullName").truthy = false → (u.get "full_name").truthy = false →
        (registerBody u).get "full_name" = .str "") ∧
    ((u.get "phoneNumber").truthy = true →
        (registerBody u).get "phone_number" = u.get "phoneNumber") ∧
    ((u.get "phoneNumber").truthy = false → (u.get "phone_number").truthy = true →
        (registerBody u).get "phone_number" = u.get "phone_number") ∧
    ((u.get "phoneNumber").truthy = false → (u.get "phone_number").truthy = false →
        (registerBody u).get "phone_number" = .str "") := by
  refine ⟨fun h1 => ?_, fun h1 h2 => ?_, fun h1 h2 => ?_,
          fun h1 => ?_, fun h1 h2 => ?_, fun h1 h2 => ?_⟩ <;>
    first
      | (rw [registerBody_full_name]; simp_all [jsOr])
      | (rw [registerBody_phone_number]; simp_all [jsOr])

/-- C9 witness: an empty-string fullName falls through to the
snake_case full_name value. -/
theorem register_truthiness_precedence_witness :
    (registerBody (.obj [("fullName", JsValue.str ""),
        ("full_name", JsValue.str "Jane Doe")])).get "full_name"
      = .str "Jane Doe" :=
  (register_truthiness_precedence (.obj [("fullName", JsValue.str ""),
      ("full_name", JsValue.str "Jane Doe")])).2.1 rfl rfl

/-- C10: connectToChat splices the incident id and token into the URL
raw, unlike login which URL-encodes its credentials; on the token a&b
the URL-decoded token query parameter comes back as a, not a&b, while
encodeURIComponent would have preserved it as a%26b. -/
theorem connectToChat_raw_token_interpolation :
    (∀ incidentId token : String,
      (connectToChat incidentId token).url
        = "wss://trustlink-backend-production.up.railway.app/api/ws/chat/"
          ++ incidentId ++ "?token=" ++ token) ∧
    (∀ email password : String,
      (loginRequest email password).body
        = .str ("username=" ++ encodeURIComponent email
            ++ "&password=" ++ encodeURIComponent password)) ∧
    tokenQueryParam (connectToChat "7" "a&b").url = some "a" ∧
    ("a" : String) ≠ "a&b" ∧
    encodeURIComponent "a&b" = "a%26b" :=
  ⟨fun _ _ => rfl, fun _ _ => rfl, rfl, by decide, rfl⟩

end TrustLink
